import Mathlib

/-!
Shallow embedding of `pytest_azurepipelines.py` (pytest-azurepipelines plugin).

String values are modelled as Lean `String`; the Python string operations the
plugin uses (`startswith`, slicing, `split(' ')`, `splitlines`, `replace`) are
embedded as character-list operations with the same semantics on the inputs
the plugin handles.
-/

namespace PytestAzurePipelines

/-- Python `s.startswith(pre)`: `pre` is a prefix of `s` (by code points). -/
def pyStartsWith (s pre : String) : Bool :=
  List.isPrefixOf pre.data s.data

/-- Python `s[n:]`: drop the first `n` code points of `s`. -/
def pyDrop (s : String) (n : Nat) : String :=
  String.mk (List.drop n s.data)

/-- Python `len(s)`: number of code points. -/
def pyLen (s : String) : Nat :=
  s.data.length

/-- Helper for `pySplitChar`: accumulates the current field (reversed). -/
def pySplitCharAux (c : Char) : List Char → List Char → List String
  | [], acc => [String.mk acc.reverse]
  | x :: rest, acc =>
      if x = c then String.mk acc.reverse :: pySplitCharAux c rest []
      else pySplitCharAux c rest (x :: acc)

/-- Python `s.split(c)` with a one-character separator: keeps empty fields,
and `"".split(c) == [""]`. -/
def pySplitChar (c : Char) (s : String) : List String :=
  pySplitCharAux c s.data []

/-- Helper for `pySplitlines`. -/
def pySplitlinesAux : List Char → List Char → List String
  | [], acc => if acc.isEmpty then [] else [String.mk acc.reverse]
  | '\r' :: '\n' :: rest, acc => String.mk acc.reverse :: pySplitlinesAux rest []
  | '\r' :: rest, acc => String.mk acc.reverse :: pySplitlinesAux rest []
  | '\n' :: rest, acc => String.mk acc.reverse :: pySplitlinesAux rest []
  | x :: rest, acc => pySplitlinesAux rest (x :: acc)

/-- Python `s.splitlines()` restricted to the newline conventions `\n`,
`\r\n` and `\r` (the ones occurring in mount-info text); no trailing empty
line is produced. -/
def pySplitlines (s : String) : List String :=
  pySplitlinesAux s.data []

/-- The single-quote character (code point 39). -/
def quoteChar : Char := Char.ofNat 39

/-- Python `s.replace(q, "")` for the single-quote character `q`: remove
every occurrence. -/
def stripSingleQuotes (s : String) : String :=
  String.mk (s.data.filter (fun c => c ≠ quoteChar))

/-- One parsed mount-info line: field 3 is the host mount point, field 4 the
container mount point (`host_mnt_path = words[3]`, `docker_mnt_path = words[4]`
in `apply_docker_mappings`). -/
structure MountEntry where
  host_mount_point : String
  container_mount_point : String
deriving DecidableEq, Repr

/-- One line of the body of `apply_docker_mappings`:
`words = line.split(' ')`; skip if fewer than 5 fields; otherwise
`(words[3], words[4])`. -/
def lineEntry (line : String) : Option MountEntry :=
  let words := pySplitChar ' ' line
  if words.length < 5 then none
  else some ⟨words.getD 3 "", words.getD 4 ""⟩

/-- The parsing part of the `for line in mountinfo.splitlines()` loop of
`apply_docker_mappings`, processing a list of lines in order
(the MountTableParser of the spec). -/
def parseLines : List String → List MountEntry
  | [] => []
  | line :: rest =>
      match lineEntry line with
      | none => parseLines rest
      | some e => e :: parseLines rest

/-- `parse(raw_text)`: split the raw mount-info text into lines and parse
each in order. -/
def parseMountinfo (mountinfo : String) : List MountEntry :=
  parseLines (pySplitlines mountinfo)

/-- The per-entry substitution step of `apply_docker_mappings`:
`if dockerpath.startswith(docker_mnt_path): dockerpath = ''.join([host_mnt_path, dockerpath[len(docker_mnt_path):]])`. -/
def applyMapping (e : MountEntry) (dockerpath : String) : String :=
  if pyStartsWith dockerpath e.container_mount_point then
    e.host_mount_point ++ pyDrop dockerpath (pyLen e.container_mount_point)
  else dockerpath

/-- The remapping scan over parsed entries, carrying the updated path forward
(the PathRemapper of the spec: `remap(entries, path)`). -/
def applyMappings : List MountEntry → String → String
  | [], dockerpath => dockerpath
  | e :: rest, dockerpath => applyMappings rest (applyMapping e dockerpath)

/-- The loop of `apply_docker_mappings`, exactly as in the source: for each
line, split on single spaces, skip lines with fewer than 5 words, otherwise
substitute the container prefix `words[4]` by the host prefix `words[3]` in
the running path. -/
def apply_docker_mappings_loop : List String → String → String
  | [], dockerpath => dockerpath
  | line :: rest, dockerpath =>
      let words := pySplitChar ' ' line
      if words.length < 5 then apply_docker_mappings_loop rest dockerpath
      else
        let docker_mnt_path := words.getD 4 ""
        let host_mnt_path := words.getD 3 ""
        if pyStartsWith dockerpath docker_mnt_path then
          apply_docker_mappings_loop rest
            (host_mnt_path ++ pyDrop dockerpath (pyLen docker_mnt_path))
        else apply_docker_mappings_loop rest dockerpath

/-- `apply_docker_mappings(mountinfo, dockerpath)` from the source. -/
def apply_docker_mappings (mountinfo dockerpath : String) : String :=
  apply_docker_mappings_loop (pySplitlines mountinfo) dockerpath

/-! ## The end-of-session hook

`pytest_sessionfinish` prints CI log-command lines to standard output.  The
emitted lines are modelled as a list of `Directive` values; `render` gives the
exact text of each line.  The ambient state the hook reads (configured
options, session counters, the filesystem and the `os.path` functions) is an
explicit `Env`.  The unguarded read of `/proc/1/mountinfo` can raise, so the
hook returns `Except String (List Directive)`: `Except.error e` models the
hook aborting with an uncaught exception `e`. -/

/-- `"coverage/coverage.xml"` (`DEFAULT_COVERAGE_PATH`). -/
def DEFAULT_COVERAGE_PATH : String := "coverage/coverage.xml"

/-- `"coverage/htmlcov"` (`DEFAULT_HTML_COVERAGE_PATH`). -/
def DEFAULT_HTML_COVERAGE_PATH : String := "coverage/htmlcov"

/-- One line printed by the plugin. `info` is a plain (non-directive) line. -/
inductive Directive where
  | publishResults (path title mode : String)
  | logError (failed collected : Nat)
  | logWarning (message : String)
  | codeCoverage (summaryfile reportdirectory : String)
  | info (message : String)
deriving DecidableEq, Repr

/-- A one-character string holding the single quote. -/
def squote : String := String.singleton quoteChar

/-- The exact text of each printed line, following the format strings of the
source. -/
def render : Directive → String
  | Directive.publishResults path title mode =>
      "##vso[results.publish type=" ++ mode ++ ";runTitle=" ++ squote ++ title
        ++ squote ++ ";publishRunAttachments=true;]" ++ path
  | Directive.logError failed collected =>
      "##vso[task.logissue type=error;]" ++ Nat.repr failed
        ++ " test(s) failed, " ++ Nat.repr collected ++ " test(s) collected."
  | Directive.logWarning message =>
      "##vso[task.logissue type=warning;]" ++ message
  | Directive.codeCoverage summaryfile reportdirectory =>
      "##vso[codecoverage.publish codecoveragetool=Cobertura;summaryfile="
        ++ summaryfile ++ ";reportdirectory=" ++ reportdirectory ++ ";]"
  | Directive.info message => message

/-- Ambient state read by `pytest_sessionfinish`: plugin options, session
counters, and the OS-dependent operations (`os.path` functions, file
existence, the mount-info read, the CSS-inlining attempt) as explicit
functions. `mountinfo_read` is `Except.error e` when opening, reading or
decoding `/proc/1/mountinfo` would raise the exception `e`;
`inline_css_error d` is `some m` when `inline_css_into_each_html_report_file(d)`
would raise an exception whose string form is `m`. -/
structure Env where
  nunit_xmlpath : String
  azure_run_title : String
  no_coverage_upload : Bool
  no_docker_discovery : Bool
  isfile_dockerenv : Bool
  mountinfo_read : Except String String
  has_pytest_cov : Bool
  path_exists : String → Bool
  expandvars : String → String
  expanduser : String → String
  abspath : String → String
  normpath : String → String
  inline_css_error : String → Option String
  exitstatus : Int
  testsfailed : Nat
  testscollected : Nat
  shouldfail : Bool

/-- Python truthiness of the `mountinfo` variable (`None` or a string):
`if mountinfo:` is taken iff it is a non-`None`, non-empty string. -/
def truthy : Option String → Bool
  | none => false
  | some s => !s.isEmpty

/-- `os.path.normpath(os.path.abspath(os.path.expanduser(os.path.expandvars(p))))`. -/
def normAbs (env : Env) (p : String) : String :=
  env.normpath (env.abspath (env.expanduser (env.expandvars p)))

/-- Lines 126-132: `mountinfo = None`; then, if docker discovery is enabled
and `/.dockerenv` is a file, read and decode `/proc/1/mountinfo` — without
any exception guard, so a raised exception propagates. -/
def read_mountinfo (env : Env) : Except String (Option String) :=
  if !env.no_docker_discovery && env.isfile_dockerenv then
    match env.mountinfo_read with
    | Except.error e => Except.error e
    | Except.ok s => Except.ok (some s)
  else Except.ok none

/-- Line 134 and lines 162-163: remap a path through the mount table when
`mountinfo` is truthy, else leave it unchanged. -/
def remap_if (mountinfo : Option String) (p : String) : String :=
  if truthy mountinfo then apply_docker_mappings (mountinfo.getD "") p else p

/-- Lines 139-146: the publish-test-results directive (with the run title's
single quotes removed), or a plain informational line when docker discovery
is disabled. -/
def publish_block (env : Env) (xmlabspath : String) : List Directive :=
  if !env.no_docker_discovery then
    [Directive.publishResults xmlabspath
      (stripSingleQuotes env.azure_run_title) "NUnit"]
  else
    [Directive.info
      "Skipping uploading of test results because --no-docker-discovery set."]

/-- Lines 148-153: the log-error directive, emitted iff the exit status is
non-zero, at least one test failed, and `session.shouldfail` is falsy. -/
def error_block (env : Env) : List Directive :=
  if env.exitstatus ≠ 0 ∧ 0 < env.testsfailed ∧ env.shouldfail = false then
    [Directive.logError env.testsfailed env.testscollected]
  else []

/-- `try_to_inline_css_into_each_html_report_file`: any exception from the
inlining is caught and printed as one warning directive. -/
def try_to_inline_css_into_each_html_report_file (env : Env)
    (reportdir : String) : List Directive :=
  match env.inline_css_error reportdir with
  | none => []
  | some msg =>
      [Directive.logWarning
        ("Failed to inline CSS styles in coverage reports. Error: " ++ msg)]

/-- Lines 155-178: the coverage-publication step.  Note the order in the
source: the existence check `os.path.exists(covpath)` is performed on the
normalized path BEFORE any docker remapping; remapping happens only inside
the existing-file branch. -/
def coverage_block (env : Env) (mountinfo : Option String) : List Directive :=
  if !env.no_coverage_upload && !env.no_docker_discovery
      && env.has_pytest_cov then
    let covpath := normAbs env DEFAULT_COVERAGE_PATH
    let reportdir := env.normpath (env.abspath DEFAULT_HTML_COVERAGE_PATH)
    if env.path_exists covpath then
      let covpath2 := remap_if mountinfo covpath
      let reportdir2 := remap_if mountinfo reportdir
      try_to_inline_css_into_each_html_report_file env reportdir2
        ++ [Directive.codeCoverage covpath2 reportdir2]
    else
      [Directive.logWarning "Coverage XML was not created, skipping upload."]
  else
    [Directive.info "Skipping uploading of coverage data."]

/-- `pytest_sessionfinish(session, exitstatus)`: resolve the result path,
read the mount table (propagating a read failure), remap the result path if
containerized, then print the publish block, the error block and the
coverage block in that order. -/
def pytest_sessionfinish (env : Env) : Except String (List Directive) :=
  let xmlabspath0 := normAbs env env.nunit_xmlpath
  match read_mountinfo env with
  | Except.error e => Except.error e
  | Except.ok mountinfo =>
      let xmlabspath := remap_if mountinfo xmlabspath0
      Except.ok (publish_block env xmlabspath ++ error_block env
        ++ coverage_block env mountinfo)

/-- `pytest_warning_recorded` (and the pre-7.0 `pytest_warning_captured`,
whose body is identical): print one warning directive whose message is the
string form of the recorded warning. -/
def pytest_warning_recorded (message : String) : Directive :=
  Directive.logWarning message

instance {ε α : Type} [DecidableEq ε] [DecidableEq α] :
    DecidableEq (Except ε α) := fun x y =>
  match x, y with
  | Except.error a, Except.error b =>
      if h : a = b then isTrue (by rw [h])
      else isFalse (by simp [Except.error.injEq, h])
  | Except.error _, Except.ok _ => isFalse (by simp)
  | Except.ok _, Except.error _ => isFalse (by simp)
  | Except.ok a, Except.ok b =>
      if h : a = b then isTrue (by rw [h])
      else isFalse (by simp [Except.ok.injEq, h])

/-! ## Concrete environments used for witnesses and counterexamples -/

/-- A plain run: default options, not containerized, no coverage plugin,
`os.path` functions that expand nothing and anchor relative paths at
`/work/`. -/
def envBase : Env where
  nunit_xmlpath := "test-output.xml"
  azure_run_title := "Pytest results"
  no_coverage_upload := false
  no_docker_discovery := false
  isfile_dockerenv := false
  mountinfo_read := Except.ok ""
  has_pytest_cov := false
  path_exists := fun _ => false
  expandvars := fun s => s
  expanduser := fun s => s
  abspath := fun s => "/work/" ++ s
  normpath := fun s => s
  inline_css_error := fun _ => none
  exitstatus := 0
  testsfailed := 0
  testscollected := 0
  shouldfail := false

/-- A containerized run in which the mount-info read raises. -/
def envReadFail : Env :=
  { envBase with
    isfile_dockerenv := true
    mountinfo_read := Except.error "PermissionError: /proc/1/mountinfo" }

/-- A containerized run with one bind mount `/host -> /work`, an active
coverage plugin, and a filesystem on which the normalized (container-side)
coverage XML exists but its host-side remapping does not. -/
def envCovRemap : Env :=
  { envBase with
    isfile_dockerenv := true
    mountinfo_read := Except.ok "a b c /host /work e f\n"
    has_pytest_cov := true
    path_exists := fun p => p == "/work/coverage/coverage.xml" }

/-- A containerized coverage run whose CSS inlining raises `"boom"`. -/
def envCssFail : Env :=
  { envCovRemap with
    path_exists := fun _ => true
    inline_css_error := fun _ => some "boom" }

/-- `scan_no_match entries p` says that at no step of the scan does any
entry's container mount point match the (possibly updated) running path. -/
def scan_no_match : List MountEntry → String → Bool
  | [], _ => true
  | e :: rest, p =>
      !(pyStartsWith p e.container_mount_point)
        && scan_no_match rest (applyMapping e p)

/-- Recognizes the log-error directive. -/
def isLogError : Directive → Bool
  | Directive.logError _ _ => true
  | _ => false

/-- Recognizes the publish-test-results directive. -/
def isPublishResults : Directive → Bool
  | Directive.publishResults _ _ _ => true
  | _ => false

/-! ## Helper lemmas -/

/-- The source loop is the composition of parsing and entry-wise remapping. -/
theorem apply_docker_mappings_loop_eq (lines : List String) (p : String) :
    apply_docker_mappings_loop lines p = applyMappings (parseLines lines) p := by
  induction lines generalizing p with
  | nil => rfl
  | cons line rest ih =>
      simp only [apply_docker_mappings_loop, parseLines, lineEntry]
      by_cases h : (pySplitChar ' ' line).length < 5
      · simp [h, ih]
      · simp only [h, if_false, ih, applyMappings, applyMapping]
        split <;> rfl

/-- `apply_docker_mappings` refines parse-then-remap. -/
theorem apply_docker_mappings_eq (mountinfo p : String) :
    apply_docker_mappings mountinfo p =
      applyMappings (parseMountinfo mountinfo) p :=
  apply_docker_mappings_loop_eq _ _

/-- A non-matching entry leaves the path unchanged. -/
theorem applyMapping_of_no_match (e : MountEntry) (p : String)
    (h : pyStartsWith p e.container_mount_point = false) :
    applyMapping e p = p := by
  simp [applyMapping, h]

/-- If no entry's container mount point is a prefix of `p`, the whole scan
leaves `p` unchanged. -/
theorem applyMappings_of_no_match (entries : List MountEntry) (p : String)
    (h : ∀ e ∈ entries, pyStartsWith p e.container_mount_point = false) :
    applyMappings entries p = p := by
  induction entries with
  | nil => rfl
  | cons e rest ih =>
      have he : applyMapping e p = p :=
        applyMapping_of_no_match e p (h e (List.mem_cons_self e rest))
      simp only [applyMappings, he]
      exact ih (fun x hx => h x (List.mem_cons_of_mem e hx))

/-- If no step of the scan matches, the scan is the identity. -/
theorem applyMappings_of_scan_no_match (entries : List MountEntry)
    (p : String) (h : scan_no_match entries p = true) :
    applyMappings entries p = p := by
  induction entries generalizing p with
  | nil => rfl
  | cons e rest ih =>
      simp only [scan_no_match, Bool.and_eq_true, Bool.not_eq_true'] at h
      have he : applyMapping e p = p := applyMapping_of_no_match e p h.1
      simp only [applyMappings, he]
      exact ih p (he ▸ h.2)

/-- The publish block contains no log-error directive. -/
theorem publish_block_no_logError (env : Env) (x : String) :
    ∀ d ∈ publish_block env x, isLogError d = false := by
  intro d hd
  unfold publish_block at hd
  split at hd <;> simp_all [isLogError]

/-- The coverage block contains no log-error directive. -/
theorem coverage_block_no_logError (env : Env) (mi : Option String) :
    ∀ d ∈ coverage_block env mi, isLogError d = false := by
  intro d hd
  simp only [coverage_block] at hd
  split at hd
  · split at hd
    · simp only [try_to_inline_css_into_each_html_report_file] at hd
      split at hd <;>
        simp only [List.nil_append, List.cons_append, List.mem_cons,
          List.mem_singleton, List.not_mem_nil, or_false] at hd
      · subst hd; rfl
      · rcases hd with rfl | rfl <;> rfl
    · simp only [List.mem_singleton] at hd
      subst hd; rfl
  · simp only [List.mem_singleton] at hd
    subst hd; rfl

/-- Every directive of the error block is the session's log-error directive,
and it is present iff the emission condition holds. -/
theorem error_block_eq (env : Env) :
    error_block env =
      if env.exitstatus ≠ 0 ∧ 0 < env.testsfailed ∧ env.shouldfail = false
      then [Directive.logError env.testsfailed env.testscollected]
      else [] := rfl

/-- The error block contains no publish-results directive. -/
theorem error_block_no_publish (env : Env) :
    ∀ d ∈ error_block env, isPublishResults d = false := by
  intro d hd
  unfold error_block at hd
  split at hd <;> simp_all [isPublishResults]

/-- The coverage block contains no publish-results directive. -/
theorem coverage_block_no_publish (env : Env) (mi : Option String) :
    ∀ d ∈ coverage_block env mi, isPublishResults d = false := by
  intro d hd
  simp only [coverage_block] at hd
  split at hd
  · split at hd
    · simp only [try_to_inline_css_into_each_html_report_file] at hd
      split at hd <;>
        simp only [List.nil_append, List.cons_append, List.mem_cons,
          List.mem_singleton, List.not_mem_nil, or_false] at hd
      · subst hd; rfl
      · rcases hd with rfl | rfl <;> rfl
    · simp only [List.mem_singleton] at hd
      subst hd; rfl
  · simp only [List.mem_singleton] at hd
    subst hd; rfl

/-- Shape of a successful session finish: the three blocks in order. -/
theorem pytest_sessionfinish_ok (env : Env) (mi : Option String)
    (hmi : read_mountinfo env = Except.ok mi) :
    pytest_sessionfinish env =
      Except.ok (publish_block env (remap_if mi (normAbs env env.nunit_xmlpath))
        ++ error_block env ++ coverage_block env mi) := by
  simp [pytest_sessionfinish, hmi]

/-- The publish directive with the fixed NUnit mode renders with the literal
`type=NUnit` folded into the prefix. -/
theorem render_publishResults_NUnit (P T : String) :
    render (Directive.publishResults P T "NUnit") =
      "##vso[results.publish type=NUnit;runTitle=" ++ squote ++ T ++ squote
        ++ ";publishRunAttachments=true;]" ++ P := by
  simp only [render]
  rw [show ("##vso[results.publish type=" ++ "NUnit" ++ ";runTitle=" : String) =
        "##vso[results.publish type=NUnit;runTitle=" from by decide]

/-! ## Claims -/

/-- C1 (counterexample): with docker discovery enabled and the `/.dockerenv`
sentinel present, a failing mount-info read is NOT treated as negative
containerization detection: the session-finish hook aborts with the read
error instead of proceeding. -/
theorem sessionfinish_aborts_on_mountinfo_read_failure :
    envReadFail.no_docker_discovery = false ∧
    envReadFail.isfile_dockerenv = true ∧
    envReadFail.mountinfo_read =
      Except.error "PermissionError: /proc/1/mountinfo" ∧
    pytest_sessionfinish envReadFail =
      Except.error "PermissionError: /proc/1/mountinfo" := by decide

/-- C1 (amended): when docker discovery is enabled, the sentinel exists and
the mount-info read or decode raises, the exception propagates out of the
session-finish hook (the read is not guarded); the hook fails rather than
proceeding as if not containerized. -/
theorem sessionfinish_mountinfo_read_failure_propagates (env : Env)
    (e : String) (hdd : env.no_docker_discovery = false)
    (hsent : env.isfile_dockerenv = true)
    (hread : env.mountinfo_read = Except.error e) :
    pytest_sessionfinish env = Except.error e := by
  simp [pytest_sessionfinish, read_mountinfo, hdd, hsent, hread]

/-- C1 (witness): the amended theorem at the concrete failing environment. -/
theorem sessionfinish_mountinfo_read_failure_propagates_witness :
    pytest_sessionfinish envReadFail =
      Except.error "PermissionError: /proc/1/mountinfo" :=
  sessionfinish_mountinfo_read_failure_propagates envReadFail
    "PermissionError: /proc/1/mountinfo" (by decide) (by decide) (by decide)

/-- C2 (counterexample): in a containerized run, with the remapped coverage
XML path absent from disk, the hook still publishes coverage (no warning is
emitted): the existence check uses the pre-remap path, not the remapped
one as the claim states. -/
theorem coverage_publishes_despite_missing_remapped_xml :
    envCovRemap.path_exists "/host/coverage/coverage.xml" = false ∧
    remap_if (some "a b c /host /work e f\n")
        (normAbs envCovRemap DEFAULT_COVERAGE_PATH) =
      "/host/coverage/coverage.xml" ∧
    pytest_sessionfinish envCovRemap =
      Except.ok
        [Directive.publishResults "/host/test-output.xml" "Pytest results"
          "NUnit",
         Directive.codeCoverage "/host/coverage/coverage.xml"
           "/host/coverage/htmlcov"] := by decide

/-- C2 (amended): in the coverage-publication step the coverage XML path and
HTML report directory are absolute-normalized, and the coverage XML
existence check runs on the normalized, NOT-yet-remapped path: if that path
does not exist a log-warning directive is emitted and publication skipped;
only in the existing branch are both paths remapped (when containerized)
before the inlining attempt and the coverage publish directive. -/
theorem coverage_existence_checked_before_remap (env : Env)
    (mi : Option String) (out : List Directive)
    (hmi : read_mountinfo env = Except.ok mi)
    (h : pytest_sessionfinish env = Except.ok out)
    (hcu : env.no_coverage_upload = false)
    (hdd : env.no_docker_discovery = false)
    (hcov : env.has_pytest_cov = true) :
    (env.path_exists (normAbs env DEFAULT_COVERAGE_PATH) = false →
        out = publish_block env (remap_if mi (normAbs env env.nunit_xmlpath))
          ++ error_block env
          ++ [Directive.logWarning
                "Coverage XML was not created, skipping upload."]) ∧
    (env.path_exists (normAbs env DEFAULT_COVERAGE_PATH) = true →
        out = publish_block env (remap_if mi (normAbs env env.nunit_xmlpath))
          ++ error_block env
          ++ (try_to_inline_css_into_each_html_report_file env
                (remap_if mi (env.normpath (env.abspath DEFAULT_HTML_COVERAGE_PATH)))
              ++ [Directive.codeCoverage
                    (remap_if mi (normAbs env DEFAULT_COVERAGE_PATH))
                    (remap_if mi
                      (env.normpath (env.abspath DEFAULT_HTML_COVERAGE_PATH)))])) := by
  rw [pytest_sessionfinish_ok env mi hmi] at h
  have hout := (Except.ok.injEq _ _).mp h.symm
  subst hout
  constructor
  · intro hne
    simp [coverage_block, hcu, hdd, hcov, hne]
  · intro hex
    simp [coverage_block, hcu, hdd, hcov, hex]

/-- C2 (witness): the amended theorem at the concrete containerized
environment whose pre-remap coverage XML exists. -/
theorem coverage_existence_checked_before_remap_witness :
    [Directive.publishResults "/host/test-output.xml" "Pytest results"
       "NUnit",
     Directive.codeCoverage "/host/coverage/coverage.xml"
       "/host/coverage/htmlcov"] =
      publish_block envCovRemap
          (remap_if (some "a b c /host /work e f\n")
            (normAbs envCovRemap envCovRemap.nunit_xmlpath))
        ++ error_block envCovRemap
        ++ (try_to_inline_css_into_each_html_report_file envCovRemap
              (remap_if (some "a b c /host /work e f\n")
                (envCovRemap.normpath
                  (envCovRemap.abspath DEFAULT_HTML_COVERAGE_PATH)))
            ++ [Directive.codeCoverage
                  (remap_if (some "a b c /host /work e f\n")
                    (normAbs envCovRemap DEFAULT_COVERAGE_PATH))
                  (remap_if (some "a b c /host /work e f\n")
                    (envCovRemap.normpath
                      (envCovRemap.abspath DEFAULT_HTML_COVERAGE_PATH)))]) :=
  (coverage_existence_checked_before_remap envCovRemap
    (some "a b c /host /work e f\n")
    [Directive.publishResults "/host/test-output.xml" "Pytest results"
       "NUnit",
     Directive.codeCoverage "/host/coverage/coverage.xml"
       "/host/coverage/htmlcov"]
    (by decide) (by decide) (by decide) (by decide) (by decide)).2
    (by decide)

/-- C3: the remapping scan processes entries in order, continuing with the
updated path after each substitution, so mappings chain: on entries
`[("/host/a","/mnt/a"), ("/host/b","/host/a/sub")]` and input
`"/mnt/a/sub/file.xml"`, the first entry yields `"/host/a/sub/file.xml"`,
the second then matches its container prefix `"/host/a/sub"` and yields
`"/host/b/file.xml"`. -/
theorem remap_chains_across_entries :
    (∀ (e : MountEntry) (rest : List MountEntry) (p : String),
        applyMappings (e :: rest) p = applyMappings rest (applyMapping e p)) ∧
    applyMapping ⟨"/host/a", "/mnt/a"⟩ "/mnt/a/sub/file.xml" =
      "/host/a/sub/file.xml" ∧
    applyMapping ⟨"/host/b", "/host/a/sub"⟩ "/host/a/sub/file.xml" =
      "/host/b/file.xml" ∧
    applyMappings [⟨"/host/a", "/mnt/a"⟩, ⟨"/host/b", "/host/a/sub"⟩]
      "/mnt/a/sub/file.xml" = "/host/b/file.xml" :=
  ⟨fun _ _ _ => rfl, by decide, by decide, by decide⟩

/-- C4: parsing splits each line on single spaces, drops lines with fewer
than 5 fields without affecting neighbors, extracts `(field[3], field[4])`
as (host, container) for every remaining line in input order, and never
fails (it is a total function characterized by `filterMap`). -/
theorem parse_extracts_fields_and_skips_malformed (lines pre post : List String)
    (bad : String) (hbad : (pySplitChar ' ' bad).length < 5) :
    parseLines lines = lines.filterMap lineEntry ∧
    parseLines (pre ++ bad :: post) = parseLines (pre ++ post) ∧
    ∀ line, 5 ≤ (pySplitChar ' ' line).length →
      parseLines [line] =
        [⟨(pySplitChar ' ' line).getD 3 "", (pySplitChar ' ' line).getD 4 ""⟩] := by
  refine ⟨?_, ?_, ?_⟩
  · induction lines with
    | nil => rfl
    | cons l rest ih =>
        simp only [parseLines, List.filterMap_cons]
        cases lineEntry l <;> simp [ih]
  · induction pre with
    | nil => simp [parseLines, lineEntry, hbad]
    | cons l rest ih =>
        simp only [List.cons_append, parseLines]
        cases lineEntry l <;> simp [ih]
  · intro line h5
    simp [parseLines, lineEntry, Nat.not_lt.mpr h5]

/-- C4 (witness): the theorem at a concrete mount table with one well-formed
line before and after a malformed two-field line. -/
theorem parse_extracts_fields_and_skips_malformed_witness :
    parseLines (["a b c /h1 /c1 x"] ++ "x y" :: ["1 2 3 4 5 6"]) =
      parseLines (["a b c /h1 /c1 x"] ++ ["1 2 3 4 5 6"]) :=
  (parse_extracts_fields_and_skips_malformed ["a b c /h1 /c1 x"]
    ["a b c /h1 /c1 x"] ["1 2 3 4 5 6"] "x y" (by decide)).2.1

/-- C5: if at no step of the scan any entry's container mount point is a
prefix of the (possibly updated) path, the path is returned unchanged; in
particular remapping with an empty entry list is the identity. -/
theorem remap_no_match_identity (entries : List MountEntry) (path : String)
    (h : scan_no_match entries path = true) :
    applyMappings entries path = path ∧ applyMappings [] path = path :=
  ⟨applyMappings_of_scan_no_match entries path h, rfl⟩

/-- C5 (witness): the theorem at a concrete non-matching entry list and at
the empty entry list, on `"/any/path"`. -/
theorem remap_no_match_identity_witness :
    applyMappings [⟨"/host/a", "/mnt/a"⟩] "/any/path" = "/any/path" ∧
    applyMappings [] "/any/path" = "/any/path" :=
  remap_no_match_identity [⟨"/host/a", "/mnt/a"⟩] "/any/path" (by decide)

/-- C6: conditional idempotence of remapping: if the output of the scan does
not start with any entry's container mount point, a second application of
the scan returns it unchanged. -/
theorem remap_conditionally_idempotent (entries : List MountEntry)
    (path : String)
    (h : ∀ e ∈ entries,
        pyStartsWith (applyMappings entries path) e.container_mount_point
          = false) :
    applyMappings entries (applyMappings entries path) =
      applyMappings entries path :=
  applyMappings_of_no_match entries (applyMappings entries path) h

/-- C6 (witness): the theorem at one entry whose output no longer matches. -/
theorem remap_conditionally_idempotent_witness :
    applyMappings [⟨"/host/a", "/mnt/a"⟩]
        (applyMappings [⟨"/host/a", "/mnt/a"⟩] "/mnt/a/x") =
      applyMappings [⟨"/host/a", "/mnt/a"⟩] "/mnt/a/x" :=
  remap_conditionally_idempotent [⟨"/host/a", "/mnt/a"⟩] "/mnt/a/x"
    (by decide)

/-- C7: a successful session finish emits exactly one log-error directive
iff the exit status is non-zero, the failed count is positive and the
session was not aborted by `shouldfail`; the directive carries the failed
and collected counts and renders as
`##vso[task.logissue type=error;]<failed> test(s) failed, <collected> test(s) collected.` -/
theorem sessionfinish_log_error_iff (env : Env) (out : List Directive)
    (h : pytest_sessionfinish env = Except.ok out) :
    out.countP isLogError =
      (if env.exitstatus ≠ 0 ∧ 0 < env.testsfailed ∧ env.shouldfail = false
       then 1 else 0) ∧
    (∀ d ∈ out, isLogError d = true →
        d = Directive.logError env.testsfailed env.testscollected) ∧
    render (Directive.logError env.testsfailed env.testscollected) =
      "##vso[task.logissue type=error;]" ++ Nat.repr env.testsfailed
        ++ " test(s) failed, " ++ Nat.repr env.testscollected
        ++ " test(s) collected." := by
  cases hmi : read_mountinfo env with
  | error e => simp [pytest_sessionfinish, hmi] at h
  | ok mi =>
      rw [pytest_sessionfinish_ok env mi hmi] at h
      have hout := (Except.ok.injEq _ _).mp h.symm
      subst hout
      have hP : (publish_block env
          (remap_if mi (normAbs env env.nunit_xmlpath))).countP isLogError = 0 :=
        List.countP_eq_zero.mpr
          (fun d hd => by simp [publish_block_no_logError env _ d hd])
      have hC : (coverage_block env mi).countP isLogError = 0 :=
        List.countP_eq_zero.mpr
          (fun d hd => by simp [coverage_block_no_logError env mi d hd])
      have hE : (error_block env).countP isLogError =
          (if env.exitstatus ≠ 0 ∧ 0 < env.testsfailed
              ∧ env.shouldfail = false then 1 else 0) := by
        rw [error_block_eq]
        split <;> simp [isLogError]
      refine ⟨?_, ?_, rfl⟩
      · simp [List.countP_append, hP, hC, hE]
      · intro d hd hde
        rcases List.mem_append.1 hd with hd' | hd'
        · rcases List.mem_append.1 hd' with hd2 | hd2
          · exact absurd hde
              (by simp [publish_block_no_logError env _ d hd2])
          · rw [error_block_eq] at hd2
            split at hd2
            · simpa using hd2
            · exact absurd hd2 (List.not_mem_nil d)
        · exact absurd hde (by simp [coverage_block_no_logError env mi d hd'])

/-- C7 (witness): a failing non-containerized run (exit status 1, 2 failed
of 5 collected) emits exactly one log-error directive. -/
theorem sessionfinish_log_error_iff_witness :
    [Directive.publishResults "/work/test-output.xml" "Pytest results"
       "NUnit",
     Directive.logError 2 5,
     Directive.info "Skipping uploading of coverage data."].countP isLogError
      = (if (1 : Int) ≠ 0 ∧ 0 < 2 ∧ false = false then 1 else 0) :=
  (sessionfinish_log_error_iff
    { envBase with exitstatus := 1, testsfailed := 2, testscollected := 5 }
    _ (by decide)).1

/-- C8: on a successful session finish with docker discovery enabled, the
hook emits exactly one publish-test-results directive, first, carrying the
absolute-normalized (and, when containerized, remapped) result path and the
run title with every single quote removed, rendered as
`##vso[results.publish type=NUnit;runTitle='<title>';publishRunAttachments=true;]<path>`;
with docker discovery disabled, no publish directive is emitted and a plain
informational line is printed instead. -/
theorem sessionfinish_publish_directive_form (env : Env) (mi : Option String)
    (out : List Directive) (hmi : read_mountinfo env = Except.ok mi)
    (h : pytest_sessionfinish env = Except.ok out) :
    (env.no_docker_discovery = false →
        out.countP isPublishResults = 1 ∧
        out.head? = some (Directive.publishResults
          (remap_if mi (normAbs env env.nunit_xmlpath))
          (stripSingleQuotes env.azure_run_title) "NUnit") ∧
        render (Directive.publishResults
            (remap_if mi (normAbs env env.nunit_xmlpath))
            (stripSingleQuotes env.azure_run_title) "NUnit") =
          "##vso[results.publish type=NUnit;runTitle=" ++ squote
            ++ stripSingleQuotes env.azure_run_title ++ squote
            ++ ";publishRunAttachments=true;]"
            ++ remap_if mi (normAbs env env.nunit_xmlpath) ∧
        (stripSingleQuotes env.azure_run_title).data =
          env.azure_run_title.data.filter (fun c => c ≠ quoteChar)) ∧
    (env.no_docker_discovery = true →
        out.countP isPublishResults = 0 ∧
        Directive.info
          "Skipping uploading of test results because --no-docker-discovery set."
          ∈ out) := by
  rw [pytest_sessionfinish_ok env mi hmi] at h
  have hout := (Except.ok.injEq _ _).mp h.symm
  subst hout
  have hE : (error_block env).countP isPublishResults = 0 :=
    List.countP_eq_zero.mpr
      (fun d hd => by simp [error_block_no_publish env d hd])
  have hC : (coverage_block env mi).countP isPublishResults = 0 :=
    List.countP_eq_zero.mpr
      (fun d hd => by simp [coverage_block_no_publish env mi d hd])
  constructor
  · intro hdd
    refine ⟨?_, ?_, render_publishResults_NUnit _ _, rfl⟩
    · simp [List.countP_append, hE, hC, publish_block, hdd, isPublishResults,
        List.countP_cons]
    · simp [publish_block, hdd]
  · intro hdd
    refine ⟨?_, ?_⟩
    · simp [List.countP_append, hE, hC, publish_block, hdd, isPublishResults,
        List.countP_cons]
    · simp [publish_block, hdd]

/-- C8 (witness): the theorem at the plain default run, whose publish
directive carries `/work/test-output.xml` and the default title. -/
theorem sessionfinish_publish_directive_form_witness :
    [Directive.publishResults "/work/test-output.xml" "Pytest results"
       "NUnit",
     Directive.info "Skipping uploading of coverage data."].countP
      isPublishResults = 1 :=
  (((sessionfinish_publish_directive_form envBase none
    [Directive.publishResults "/work/test-output.xml" "Pytest results"
       "NUnit",
     Directive.info "Skipping uploading of coverage data."]
    (by decide) (by decide)).1) rfl).1

/-- C9: a failure raised while inlining CSS into the HTML report files is
caught and converted into a single warning directive (rendered as
`##vso[task.logissue type=warning;]` followed by the failure text), after
which the hook still emits the coverage publish directive and returns
normally. -/
theorem css_inline_failure_downgraded_to_warning (env : Env)
    (mi : Option String) (out : List Directive) (msg : String)
    (hmi : read_mountinfo env = Except.ok mi)
    (h : pytest_sessionfinish env = Except.ok out)
    (hcu : env.no_coverage_upload = false)
    (hdd : env.no_docker_discovery = false)
    (hcov : env.has_pytest_cov = true)
    (hex : env.path_exists (normAbs env DEFAULT_COVERAGE_PATH) = true)
    (hfail : env.inline_css_error
        (remap_if mi (env.normpath (env.abspath DEFAULT_HTML_COVERAGE_PATH)))
      = some msg) :
    out = publish_block env (remap_if mi (normAbs env env.nunit_xmlpath))
      ++ error_block env
      ++ [Directive.logWarning
            ("Failed to inline CSS styles in coverage reports. Error: " ++ msg),
          Directive.codeCoverage
            (remap_if mi (normAbs env DEFAULT_COVERAGE_PATH))
            (remap_if mi
              (env.normpath (env.abspath DEFAULT_HTML_COVERAGE_PATH)))] ∧
    render (Directive.logWarning
        ("Failed to inline CSS styles in coverage reports. Error: " ++ msg)) =
      "##vso[task.logissue type=warning;]"
        ++ ("Failed to inline CSS styles in coverage reports. Error: " ++ msg) := by
  rw [pytest_sessionfinish_ok env mi hmi] at h
  have hout := (Except.ok.injEq _ _).mp h.symm
  subst hout
  refine ⟨?_, rfl⟩
  simp [coverage_block, try_to_inline_css_into_each_html_report_file,
    hcu, hdd, hcov, hex, hfail]

/-- C9 (witness): the theorem at a containerized coverage run whose inlining
raises `"boom"`. -/
theorem css_inline_failure_downgraded_to_warning_witness :
    [Directive.publishResults "/host/test-output.xml" "Pytest results"
       "NUnit",
     Directive.logWarning
       "Failed to inline CSS styles in coverage reports. Error: boom",
     Directive.codeCoverage "/host/coverage/coverage.xml"
       "/host/coverage/htmlcov"] =
      publish_block envCssFail
          (remap_if (some "a b c /host /work e f\n")
            (normAbs envCssFail envCssFail.nunit_xmlpath))
        ++ error_block envCssFail
        ++ [Directive.logWarning
              ("Failed to inline CSS styles in coverage reports. Error: "
                ++ "boom"),
            Directive.codeCoverage
              (remap_if (some "a b c /host /work e f\n")
                (normAbs envCssFail DEFAULT_COVERAGE_PATH))
              (remap_if (some "a b c /host /work e f\n")
                (envCssFail.normpath
                  (envCssFail.abspath DEFAULT_HTML_COVERAGE_PATH)))] :=
  (css_inline_failure_downgraded_to_warning envCssFail
    (some "a b c /host /work e f\n")
    [Directive.publishResults "/host/test-output.xml" "Pytest results"
       "NUnit",
     Directive.logWarning
       "Failed to inline CSS styles in coverage reports. Error: boom",
     Directive.codeCoverage "/host/coverage/coverage.xml"
       "/host/coverage/htmlcov"]
    "boom" (by decide) (by decide) (by decide) (by decide) (by decide)
    (by decide) (by decide)).1

/-- C10: every warning recorded by pytest is forwarded as its own CI warning
directive: for each captured warning message, the plugin prints one line
`##vso[task.logissue type=warning;]` followed by the message's string form
(one printed line per recorded warning). -/
theorem warning_recorded_forwarded_as_directive (msgs : List String) :
    msgs.map (fun m => render (pytest_warning_recorded m)) =
      msgs.map (fun m => "##vso[task.logissue type=warning;]" ++ m) ∧
    (msgs.map (fun m => render (pytest_warning_recorded m))).length
      = msgs.length := by
  refine ⟨?_, by simp⟩
  simp [render, pytest_warning_recorded]

-- sanity checks
example :
    pytest_sessionfinish envBase =
      Except.ok
        [Directive.publishResults "/work/test-output.xml" "Pytest results"
          "NUnit",
         Directive.info "Skipping uploading of coverage data."] := by decide
example :
    pytest_sessionfinish envReadFail =
      Except.error "PermissionError: /proc/1/mountinfo" := by decide
example :
    pytest_sessionfinish envCovRemap =
      Except.ok
        [Directive.publishResults "/host/test-output.xml" "Pytest results"
          "NUnit",
         Directive.codeCoverage "/host/coverage/coverage.xml"
           "/host/coverage/htmlcov"] := by decide
example : pySplitChar ' ' "a  b" = ["a", "", "b"] := by decide
example : pySplitChar ' ' "" = [""] := by decide
example : pySplitlines "a\nb\r\nc\rd\n" = ["a", "b", "c", "d"] := by decide
example : pySplitlines "" = [] := by decide
example : pyStartsWith "/mnt/a/sub" "/mnt/a" = true := by decide
example : pyDrop "/mnt/a/sub" 6 = "/sub" := by decide
example : stripSingleQuotes "ab" = "ab" := by decide
example :
    apply_docker_mappings "a b c /host /work e f\n" "/work/test-output.xml" =
      "/host/test-output.xml" := by decide
example :
    applyMappings [⟨"/host/a", "/mnt/a"⟩, ⟨"/host/b", "/host/a/sub"⟩]
      "/mnt/a/sub/file.xml" = "/host/b/file.xml" := by decide

end PytestAzurePipelines
